import Mathlib

/-!
Verification development for the AAYURCURE clinic front-end (src/main.ts).

The TypeScript file is a collection of pure string validators, message
composers and small DOM state machines.  This file embeds those parts
shallowly: strings are processed at the character-list level, the DOM
effects of a handler are returned as an explicit record, and dates are
handled at civil-day granularity (the site targets the clinic's UTC+5:30
locale, where the millisecond comparison in `validateDate` coincides with
the civil-day comparison for date-input values).
-/

namespace Aayurcure

/-- Character strings, processed one character at a time. -/
abbrev Str := List Char

/-- Character class of the JS regex `\d` (ASCII digits). -/
def isDigitChar (c : Char) : Bool := '0' ≤ c && c ≤ '9'

/-- Character class of the JS regex `[a-zA-Z]` (ASCII letters). -/
def isAsciiLetter (c : Char) : Bool := ('A' ≤ c && c ≤ 'Z') || ('a' ≤ c && c ≤ 'z')

/-- Character class of the JS regex `\s` (and of `String.prototype.trim`):
whitespace and line terminators.  We list the members that can occur in
practice (ASCII whitespace, NBSP, BOM, and the Unicode line separators). -/
def isJsWhitespace (c : Char) : Bool :=
  c = ' ' || c = '\t' || c = '\n' || c = '\r' || c = '\x0b' || c = '\x0c' ||
  c = '\u00A0' || c = '\uFEFF' || c = '\u2028' || c = '\u2029'

/-- Model of `String.prototype.trim`: drop leading and trailing whitespace. -/
def jsTrim (s : Str) : Str :=
  ((s.dropWhile isJsWhitespace).reverse.dropWhile isJsWhitespace).reverse

/-- Character class of the JS regex `[a-zA-Z\s.]` (src/main.ts:67). -/
def isNameChar (c : Char) : Bool := isAsciiLetter c || isJsWhitespace c || c = '.'

/-- Test of the regex `/^[a-zA-Z\s.]+$/` (src/main.ts:67). -/
def nameRegexTest (l : Str) : Bool := !l.isEmpty && l.all isNameChar

/-- Test of `FormValidator.PHONE_REGEX = /^[6-9]\d{9}$/` (src/main.ts:57). -/
def phoneRegexTest : Str → Bool
  | [] => false
  | c :: rest => ('6' ≤ c && c ≤ '9') && rest.length = 9 && rest.all isDigitChar

namespace FormValidator

/-- FormValidator.validateName (src/main.ts:59-71). -/
def validateName (name : String) : String :=
  let trimmedName := jsTrim name.data
  if trimmedName.length = 0 then "Name is required"
  else if trimmedName.length < 2 then "Name must be at least 2 characters"
  else if !nameRegexTest trimmedName then "Name can only contain letters, spaces, and periods"
  else ""

/-- FormValidator.validatePhone (src/main.ts:73-82); `phone.replace(/\D/g, '')`
keeps exactly the digit characters. -/
def validatePhone (phone : String) : String :=
  let cleanPhone := phone.data.filter isDigitChar
  if cleanPhone.length = 0 then "Phone number is required"
  else if !phoneRegexTest cleanPhone then "Please enter a valid 10-digit Indian mobile number"
  else ""

end FormValidator

/-- Gregorian leap-year test. -/
def isLeapYear (y : Nat) : Bool := (y % 4 = 0 && y % 100 ≠ 0) || y % 400 = 0

/-- Number of days in a month (1 to 12) of a Gregorian year. -/
def daysInMonth (y m : Nat) : Nat :=
  if m = 2 then (if isLeapYear y then 29 else 28)
  else if m = 4 || m = 6 || m = 9 || m = 11 then 30
  else 31

/-- Civil date to days since 1970-01-01 (standard era-based conversion). -/
def daysFromCivil (y m d : Int) : Int :=
  let yAdj : Int := if m ≤ 2 then y - 1 else y
  let era : Int := (if 0 ≤ yAdj then yAdj else yAdj - 399).tdiv 400
  let yoe : Int := yAdj - era * 400
  let mp : Int := (m + 9).tmod 12
  let doy : Int := (153 * mp + 2).tdiv 5 + d - 1
  let doe : Int := yoe * 365 + yoe.tdiv 4 - yoe.tdiv 100 + doy
  era * 146097 + doe - 719468

/-- Day of week of a day count, numbered as by JS `Date.prototype.getDay`:
0 = Sunday, ..., 6 = Saturday (day 0, 1970-01-01, was a Thursday). -/
def dayOfWeek (days : Int) : Int := (days + 4).emod 7

/-- Numerals of a digit string. -/
def digitsToNat (l : Str) : Nat :=
  l.foldl (fun acc c => acc * 10 + (c.toNat - '0'.toNat)) 0

/-- Model of the browser API `new Date(s)` on a date-input value: the value
is either the canonical `YYYY-MM-DD` form with in-range month and day
(giving a timestamp, at civil-day granularity) or an invalid date (NaN
timestamp), which we return as the year, month, day triple or `none`. -/
def parseCivil (s : String) : Option (Nat × Nat × Nat) :=
  match s.data with
  | [y1, y2, y3, y4, '-', m1, m2, '-', d1, d2] =>
    if ([y1, y2, y3, y4, m1, m2, d1, d2].all isDigitChar) then
      let y := digitsToNat [y1, y2, y3, y4]
      let m := digitsToNat [m1, m2]
      let d := digitsToNat [d1, d2]
      if 1 ≤ m && m ≤ 12 && 1 ≤ d && d ≤ daysInMonth y m then some (y, m, d)
      else none
    else none
  | _ => none

/-- Day count of a date string, `none` for an invalid date. -/
def parseDate (s : String) : Option Int :=
  (parseCivil s).map (fun x => daysFromCivil x.1 x.2.1 x.2.2)

namespace FormValidator

/-- FormValidator.validateDate (src/main.ts:84-104).  `today` is the current
civil day count (the source's `new Date()` with hours zeroed).  An invalid
date has a NaN timestamp in JS, so both the `<` test and the `getDay() === 0`
test are false and the function returns the empty message. -/
def validateDate (dateString : String) (today : Int) : String :=
  if dateString = "" then ""
  else
    match parseDate dateString with
    | none => ""
    | some selectedDate =>
      if selectedDate < today then "Please select a future date"
      else if dayOfWeek selectedDate = 0 then
        "Sundays are by appointment only - please call to schedule"
      else ""

end FormValidator

/-- The AppointmentFormData record (src/main.ts:4-11). -/
structure AppointmentFormData where
  patientName : String
  phoneNumber : String
  serviceType : String
  preferredDate : String
  preferredTime : String
  message : String
deriving DecidableEq

/-- The ValidationResult record (src/main.ts:13-16); `errors` keeps the
object's insertion order, with the empty messages already deleted
(src/main.ts:114-118). -/
structure ValidationResult where
  isValid : Bool
  errors : List (String × String)
deriving DecidableEq

namespace FormValidator

/-- FormValidator.validateForm (src/main.ts:106-124). -/
def validateForm (formData : AppointmentFormData) (today : Int) : ValidationResult :=
  let errors :=
    [("patientName", validateName formData.patientName),
     ("phoneNumber", validatePhone formData.phoneNumber),
     ("preferredDate", validateDate formData.preferredDate today)].filter
      (fun p => p.2 ≠ "")
  { isValid := errors.length = 0, errors := errors }

end FormValidator

/-- Uppercase hexadecimal digit of a value below 16. -/
def hexDigit (n : Nat) : Char :=
  if n < 10 then Char.ofNat ('0'.toNat + n) else Char.ofNat ('A'.toNat + (n - 10))

/-- UTF-8 bytes of a character. -/
def utf8Bytes (c : Char) : List Nat :=
  let n := c.toNat
  if n < 128 then [n]
  else if n < 2048 then [192 + n / 64, 128 + n % 64]
  else if n < 65536 then [224 + n / 4096, 128 + n / 64 % 64, 128 + n % 64]
  else [240 + n / 262144, 128 + n / 4096 % 64, 128 + n / 64 % 64, 128 + n % 64]

/-- The characters the JS `encodeURIComponent` leaves unescaped. -/
def isUnescapedURIChar (c : Char) : Bool :=
  isAsciiLetter c || isDigitChar c || c = '-' || c = '_' || c = '.' || c = '!' ||
  c = '~' || c = '*' || c = '\x27' || c = '(' || c = ')'

/-- Percent-encoding of one character. -/
def encodeChar (c : Char) : Str :=
  if isUnescapedURIChar c then [c]
  else (utf8Bytes c).flatMap (fun b => ['%', hexDigit (b / 16), hexDigit (b % 16)])

/-- Model of the browser API `encodeURIComponent`, character by character. -/
def encodeURIComponent : Str → Str
  | [] => []
  | c :: cs => encodeChar c ++ encodeURIComponent cs

/-- Weekday name of a `dayOfWeek` value. -/
def weekdayName (w : Int) : String :=
  if w = 0 then "Sunday" else if w = 1 then "Monday" else if w = 2 then "Tuesday"
  else if w = 3 then "Wednesday" else if w = 4 then "Thursday"
  else if w = 5 then "Friday" else "Saturday"

/-- Month name of a month number (1 to 12). -/
def monthName (m : Nat) : String :=
  if m = 1 then "January" else if m = 2 then "February" else if m = 3 then "March"
  else if m = 4 then "April" else if m = 5 then "May" else if m = 6 then "June"
  else if m = 7 then "July" else if m = 8 then "August" else if m = 9 then "September"
  else if m = 10 then "October" else if m = 11 then "November" else "December"

/-- Model of the browser API chain `new Date(s).toLocaleDateString` with the
en-IN long options of src/main.ts:399-404; an invalid date renders as the
string `Invalid Date`. -/
def toLocaleDateStringEnIN (s : String) : String :=
  match parseCivil s with
  | none => "Invalid Date"
  | some x =>
    weekdayName (dayOfWeek (daysFromCivil x.1 x.2.1 x.2.2)) ++ ", " ++
    toString x.2.2 ++ " " ++ monthName x.2.1 ++ ", " ++ toString x.1

namespace AppointmentForm

/-- The serviceNames lookup table (src/main.ts:373-382). -/
def serviceNames (k : String) : Option String :=
  if k = "consultation" then some "General Consultation"
  else if k = "kansya-thali" then some "Kansya Thali Massage"
  else if k = "panchkarma" then some "Pain Management & Panchkarma"
  else if k = "hair-skin" then some "Hair and Skin Care"
  else if k = "viddhkarma" then some "Viddhkarma (Needle Therapy)"
  else if k = "cupping" then some "Cupping Therapy"
  else if k = "weight-management" then some "Weight Management"
  else if k = "swarnaprash" then some "Swarnaprash for Kids"
  else none

/-- The timeSlots lookup table (src/main.ts:384-387). -/
def timeSlots (k : String) : Option String :=
  if k = "morning" then some "Morning (9:30 AM - 1:00 PM)"
  else if k = "evening" then some "Evening (4:30 PM - 7:30 PM)"
  else none

/-- The plain-text body built by AppointmentForm.generateEmailContent
(src/main.ts:389-415) before its final `encodeURIComponent`. -/
def emailContentPlain (formData : AppointmentFormData) : Str :=
  "Appointment Request from AAYURCURE Website\n\n".data ++
  "Patient Name: ".data ++ formData.patientName.data ++ "\n".data ++
  "Phone Number: ".data ++ formData.phoneNumber.data ++ "\n".data ++
  (if formData.serviceType ≠ "" then
    "Service Required: ".data ++
      ((serviceNames formData.serviceType).getD formData.serviceType).data ++ "\n".data
   else []) ++
  (if formData.preferredDate ≠ "" then
    "Preferred Date: ".data ++ (toLocaleDateStringEnIN formData.preferredDate).data ++ "\n".data
   else []) ++
  (if formData.preferredTime ≠ "" then
    "Preferred Time: ".data ++
      ((timeSlots formData.preferredTime).getD formData.preferredTime).data ++ "\n".data
   else []) ++
  (if jsTrim formData.message.data ≠ [] then
    "\nAdditional Information:\n".data ++ formData.message.data ++ "\n".data
   else []) ++
  "\n---\nSubmitted from: AAYURCURE Website".data

/-- AppointmentForm.generateEmailContent (src/main.ts:372-418). -/
def generateEmailContent (formData : AppointmentFormData) : Str :=
  encodeURIComponent (emailContentPlain formData)

/-- The plain-text body built by AppointmentForm.generateWhatsAppMessage
(src/main.ts:420-438) before its final `encodeURIComponent`. -/
def whatsAppMessagePlain (formData : AppointmentFormData) : Str :=
  "Hello AAYURCURE, I\x27d like to book an appointment.\n\n".data ++
  "Name: ".data ++ formData.patientName.data ++ "\n".data ++
  "Phone: ".data ++ formData.phoneNumber.data ++ "\n".data ++
  (if formData.serviceType ≠ "" then
    "Service: ".data ++ formData.serviceType.data ++ "\n".data
   else []) ++
  (if formData.preferredDate ≠ "" then
    "Date: ".data ++ formData.preferredDate.data ++ "\n".data
   else []) ++
  (if formData.preferredTime ≠ "" then
    "Time: ".data ++ formData.preferredTime.data ++ "\n".data
   else [])

/-- AppointmentForm.generateWhatsAppMessage (src/main.ts:420-438). -/
def generateWhatsAppMessage (formData : AppointmentFormData) : Str :=
  encodeURIComponent (whatsAppMessagePlain formData)

/-- The mailto link built by handleSubmit (src/main.ts:474). -/
def mailtoLink (formData : AppointmentFormData) : Str :=
  "mailto:?subject=Appointment Request - AAYURCURE&body=".data ++ generateEmailContent formData

/-- The WhatsApp deep link built by handleSubmit (src/main.ts:477). -/
def whatsappLink (formData : AppointmentFormData) : Str :=
  "https://wa.me/917359171081?text=".data ++ generateWhatsAppMessage formData

/-- AppointmentForm.formatPhoneInput (src/main.ts:299-309) as a function on
the field value: strip the non-digits, then cut to ten digits. -/
def formatPhoneInput (value : String) : String :=
  let v := value.data.filter isDigitChar
  let v := if v.length > 10 then v.take 10 else v
  String.mk v

end AppointmentForm

/-- The toast type field of ToastOptions (src/main.ts:18-22). -/
inductive ToastType
  | success
  | error
  | info
deriving DecidableEq

/-- The ToastOptions record (src/main.ts:18-22); `duration` is optional. -/
structure ToastOptions where
  message : String
  type : ToastType
  duration : Option Nat := none
deriving DecidableEq

/-- The mutable state of the toast element: its background style and whether
the `show` class is present. -/
structure ToastElementState where
  background : String
  showClass : Bool
deriving DecidableEq

/-- The elements ToastManager holds; `none` models an element missing from
the document (src/main.ts:145-148). -/
structure ToastManagerState where
  toastElement : Option ToastElementState
  messageElement : Option String
deriving DecidableEq

namespace ToastManager

/-- The ToastManager method `show` (src/main.ts:155-170): a guarded DOM
update, a no-op when either element is missing. -/
def showToast (st : ToastManagerState) (options : ToastOptions) : ToastManagerState :=
  match st.toastElement, st.messageElement with
  | some _, some _ =>
    { toastElement := some
        { background :=
            if options.type = ToastType.error then "var(--color-error)" else "var(--color-success)",
          showClass := true },
      messageElement := some options.message }
  | _, _ => st

/-- ToastManager.hide (src/main.ts:172-176). -/
def hide (st : ToastManagerState) : ToastManagerState :=
  match st.toastElement with
  | some el => { st with toastElement := some { el with showClass := false } }
  | none => st

end ToastManager

/-- The DOM effects of one run of AppointmentForm.handleSubmit: which error
texts were written, which field got focus, the toast that was shown, the
pair of links handed to showContactOptions, and whether `form.reset()` ran. -/
structure SubmitOutcome where
  clearedErrors : Bool
  displayedErrors : List (String × String)
  focusedField : Option String
  toast : Option ToastOptions
  contactOptions : Option (Str × Str)
  didReset : Bool
deriving DecidableEq

namespace AppointmentForm

/-- Outcome of a run that did nothing. -/
def noOutcome : SubmitOutcome :=
  { clearedErrors := false, displayedErrors := [], focusedField := none,
    toast := none, contactOptions := none, didReset := false }

/-- AppointmentForm.getFormData (src/main.ts:330-343): throws when the form
element is absent; otherwise the aggregated field values. -/
def getFormData (form : Option AppointmentFormData) : Except String AppointmentFormData :=
  match form with
  | none => Except.error "Form not found"
  | some formData => Except.ok formData

/-- AppointmentForm.handleSubmit (src/main.ts:440-490) as a function from the
form contents (`none` when the form element is absent, the guard at line 443)
and the current day to its DOM effects.  `displayErrors` writes the error
texts in the object's insertion order and the focus goes to the first error
key (src/main.ts:456-460). -/
def handleSubmit (form : Option AppointmentFormData) (today : Int) : SubmitOutcome :=
  match form with
  | none => noOutcome
  | some formData =>
    let validation := FormValidator.validateForm formData today
    if !validation.isValid then
      { clearedErrors := true,
        displayedErrors := validation.errors,
        focusedField := validation.errors.head?.map Prod.fst,
        toast := some { message := "Please fix the errors below", type := ToastType.error },
        contactOptions := none,
        didReset := false }
    else
      { clearedErrors := true,
        displayedErrors := [],
        focusedField := none,
        toast := some
          { message := "Appointment request prepared! Choose your preferred contact method.",
            type := ToastType.success },
        contactOptions := some (mailtoLink formData, whatsappLink formData),
        didReset := true }

/-- AppointmentForm.initializeForm (src/main.ts:264-297): the event listeners
that get attached, given which elements exist.  When the form element is
absent nothing is attached at all (the guard at line 265). -/
def initForm (form : Option Unit) (nameInput phoneInput dateInput : Bool) : List String :=
  match form with
  | none => []
  | some _ =>
    ["form.submit"] ++
    (if nameInput then ["patientName.blur"] else []) ++
    (if phoneInput then ["phoneNumber.blur", "phoneNumber.input"] else []) ++
    (if dateInput then ["preferredDate.change"] else [])

end AppointmentForm

/-- One FAQ item: the `aria-expanded` state of its question button and
whether a `.faq-answer` element exists inside the item. -/
structure FAQItem where
  expanded : Bool
  hasAnswer : Bool
deriving DecidableEq

namespace FAQAccordion

/-- The forEach over the non-clicked questions (src/main.ts:604-612): every
one gets `aria-expanded` set to false. -/
def closeAll : List FAQItem → List FAQItem
  | [] => []
  | it :: rest => { it with expanded := false } :: closeAll rest

/-- Walk of the item list during a toggle of the item at the given index,
whose prior state was `wasExpanded`: the clicked item is toggled, every
other item is closed. -/
def toggleWalk : Nat → Bool → List FAQItem → List FAQItem
  | _, _, [] => []
  | 0, wasExpanded, it :: rest => { it with expanded := !wasExpanded } :: closeAll rest
  | n + 1, wasExpanded, it :: rest =>
    { it with expanded := false } :: toggleWalk n wasExpanded rest

/-- FAQAccordion.toggleFAQ (src/main.ts:595-622) on the item at index `i`:
a no-op when the index is out of range or the item has no answer element
(the guard at line 601); otherwise all other items close and the clicked
item flips. -/
def toggleFAQ (st : List FAQItem) (i : Nat) : List FAQItem :=
  match st[i]? with
  | none => st
  | some item => if item.hasAnswer then toggleWalk i item.expanded st else st

/-- Number of expanded items. -/
def countExpanded (st : List FAQItem) : Nat := (st.filter (fun it => it.expanded)).length

end FAQAccordion

/-- Toggle of a class on a class list (DOMHelper.toggleClass). -/
def toggleClassList (classes : List String) (c : String) : List String :=
  if classes.contains c then classes.filter (fun x => x ≠ c) else classes ++ [c]

/-- Removal of a class from a class list (DOMHelper.removeClass). -/
def removeClassList (classes : List String) (c : String) : List String :=
  classes.filter (fun x => x ≠ c)

/-- The elements MobileNavigation holds, as their class lists; `none` models
an element missing from the document (src/main.ts:630-633). -/
structure MobileNavState where
  navToggle : Option (List String)
  navMenu : Option (List String)
deriving DecidableEq

namespace MobileNavigation

/-- MobileNavigation.initializeMobileNav (src/main.ts:636-654): the attached
listeners; nothing is attached when either element is missing. -/
def initMobileNav (st : MobileNavState) (navLinkCount : Nat) : List String :=
  match st.navToggle, st.navMenu with
  | some _, some _ =>
    ["navToggle.click"] ++ List.replicate navLinkCount "navLink.click" ++ ["document.click"]
  | _, _ => []

/-- MobileNavigation.toggleMenu (src/main.ts:656-661). -/
def toggleMenu (st : MobileNavState) : MobileNavState :=
  match st.navToggle, st.navMenu with
  | some t, some m =>
    { navToggle := some (toggleClassList t "active"), navMenu := some (toggleClassList m "active") }
  | _, _ => st

/-- MobileNavigation.closeMenu (src/main.ts:663-668). -/
def closeMenu (st : MobileNavState) : MobileNavState :=
  match st.navToggle, st.navMenu with
  | some t, some m =>
    { navToggle := some (removeClassList t "active"), navMenu := some (removeClassList m "active") }
  | _, _ => st

end MobileNavigation

namespace MobileCTAController

/-- MobileCTAController.initializeCTAController (src/main.ts:681-687): the
attached listeners; nothing when the CTA element is missing. -/
def initCTAController (mobileCTA : Option String) : List String :=
  match mobileCTA with
  | none => []
  | some _ => ["window.scroll", "window.resize"]

/-- MobileCTAController.handleResize (src/main.ts:705-713) on the CTA
element's display style. -/
def handleResize (mobileCTA : Option String) (innerWidth : Nat) : Option String :=
  match mobileCTA with
  | none => none
  | some _ => some (if innerWidth > 768 then "none" else "grid")

end MobileCTAController

section Sanity

example : FormValidator.validateName "Jane Doe" = "" := by decide
example : FormValidator.validateName "A" = "Name must be at least 2 characters" := by decide
example : FormValidator.validatePhone "9876543210" = "" := by decide
example : daysFromCivil 1970 1 1 = 0 := by decide
example : dayOfWeek (daysFromCivil 2026 10 11) = 0 := by decide
example : dayOfWeek (daysFromCivil 2026 10 12) = 1 := by decide
example : parseDate "2026-10-12" = some 20738 := by decide
example : parseDate "2026-13-01" = none := by decide
example : FormValidator.validateDate "2026-10-18" (daysFromCivil 2026 10 11) =
    "Sundays are by appointment only - please call to schedule" := by decide

end Sanity

/-- A length-zero list is empty. -/
theorem length_zero_iff_nil {α : Type} (l : List α) : l.length = 0 ↔ l = [] :=
  List.length_eq_zero

/-- C1: phone validation passes exactly when the input, after stripping all
non-digit characters, matches `^[6-9]\d{9}$`; a stripped-empty input fails
with the required message, every other failing input with the
invalid-number message. -/
theorem phone_validation_matches_regex (s : String) :
    (FormValidator.validatePhone s = "" ↔
      phoneRegexTest (s.data.filter isDigitChar) = true) ∧
    (s.data.filter isDigitChar = [] →
      FormValidator.validatePhone s = "Phone number is required") ∧
    (s.data.filter isDigitChar ≠ [] → phoneRegexTest (s.data.filter isDigitChar) = false →
      FormValidator.validatePhone s = "Please enter a valid 10-digit Indian mobile number") := by
  unfold FormValidator.validatePhone
  by_cases h1 : s.data.filter isDigitChar = []
  · simp [h1, phoneRegexTest]
  · by_cases h2 : phoneRegexTest (s.data.filter isDigitChar) = true
    · simp [h1, h2, length_zero_iff_nil]
    · simp only [Bool.not_eq_true] at h2
      simp [h1, h2, length_zero_iff_nil]

/-- Witness for C1: a passing number, the required message on a stripped-empty
input, and the invalid message on a short number. -/
theorem phone_validation_matches_regex_witness :
    FormValidator.validatePhone "(987) 654-3210" = "" ∧
    FormValidator.validatePhone "abc" = "Phone number is required" ∧
    FormValidator.validatePhone "12345" = "Please enter a valid 10-digit Indian mobile number" :=
  ⟨(phone_validation_matches_regex "(987) 654-3210").1.mpr (by decide),
   (phone_validation_matches_regex "abc").2.1 (by decide),
   (phone_validation_matches_regex "12345").2.2 (by decide) (by decide)⟩

/-- C5: name validation fails exactly when the trimmed input is empty, is
shorter than two characters, or contains a character outside letters,
whitespace and periods; the three example inputs behave as the spec says. -/
theorem name_validation_characterization (s : String) :
    (FormValidator.validateName s ≠ "" ↔
      (jsTrim s.data = [] ∨ (jsTrim s.data).length < 2 ∨
        ∃ c ∈ jsTrim s.data, isNameChar c = false)) ∧
    FormValidator.validateName "A" = "Name must be at least 2 characters" ∧
    FormValidator.validateName "Jane Doe" = "" ∧
    FormValidator.validateName "Jane123" = "Name can only contain letters, spaces, and periods" := by
  refine ⟨?_, by decide, by decide, by decide⟩
  unfold FormValidator.validateName
  by_cases h1 : jsTrim s.data = []
  · simp [h1]
  · have h1' : ¬(jsTrim s.data).length = 0 := by
      simpa [length_zero_iff_nil] using h1
    by_cases h2 : (jsTrim s.data).length < 2
    · simp [h1', h2]
    · by_cases h3 : nameRegexTest (jsTrim s.data) = true
      · have h3' : ∀ c ∈ jsTrim s.data, isNameChar c = true := by
          have := (Bool.and_eq_true _ _).mp h3
          simpa [List.all_eq_true] using this.2
        simp [h1, h2, h3]
        intro c hc
        exact h3' c hc
      · have h3' : ∃ c ∈ jsTrim s.data, isNameChar c = false := by
          rcases Bool.not_eq_true _ ▸ h3 with h
          have : ¬(!(jsTrim s.data).isEmpty && (jsTrim s.data).all isNameChar) = true := by
            simpa [nameRegexTest] using h3
          rcases Bool.and_eq_true_iff.not.mp this |> not_and_or.mp with hL | hR
          · exact absurd (by simpa [List.isEmpty_iff] using h1) (by simpa using hL)
          · have : ¬∀ c ∈ jsTrim s.data, isNameChar c = true := by
              simpa [List.all_eq_true] using hR
            push_neg at this
            rcases this with ⟨c, hc, hcf⟩
            exact ⟨c, hc, by simpa using hcf⟩
        simp [h1, h2, h3, h3']

/-- Witness for C5: the failure characterization applied to an input with an
invalid character. -/
theorem name_validation_characterization_witness :
    FormValidator.validateName "Jane123" ≠ "" :=
  (name_validation_characterization "Jane123").1.mpr (by decide)

/-- C9: form validation reads only the name, phone and date fields; two
records agreeing on those three fields validate identically, whatever their
service type, time and message. -/
theorem validateForm_ignores_unvalidated_fields (fd1 fd2 : AppointmentFormData) (today : Int)
    (hn : fd1.patientName = fd2.patientName) (hp : fd1.phoneNumber = fd2.phoneNumber)
    (hd : fd1.preferredDate = fd2.preferredDate) :
    FormValidator.validateForm fd1 today = FormValidator.validateForm fd2 today := by
  simp only [FormValidator.validateForm, hn, hp, hd]

/-- Witness for C9: two records equal on the validated fields but different
everywhere else validate identically. -/
theorem validateForm_ignores_unvalidated_fields_witness :
    FormValidator.validateForm
        { patientName := "Asha Rao", phoneNumber := "9876543210", serviceType := "consultation",
          preferredDate := "", preferredTime := "morning", message := "hello" } 0 =
      FormValidator.validateForm
        { patientName := "Asha Rao", phoneNumber := "9876543210", serviceType := "cupping",
          preferredDate := "", preferredTime := "evening", message := "bye" } 0 :=
  validateForm_ignores_unvalidated_fields _ _ 0 rfl rfl rfl

/-- C10: when validation fails the submission handler returns before
`form.reset()`, so a failed submission never clears the entered values. -/
theorem failed_submission_preserves_input (fd : AppointmentFormData) (today : Int)
    (h : (FormValidator.validateForm fd today).isValid = false) :
    (AppointmentForm.handleSubmit (some fd) today).didReset = false := by
  simp [AppointmentForm.handleSubmit, h]

/-- Witness for C10: a failing record is not reset. -/
theorem failed_submission_preserves_input_witness :
    (AppointmentForm.handleSubmit
        (some { patientName := "X", phoneNumber := "12345", serviceType := "",
                preferredDate := "", preferredTime := "", message := "" }) 0).didReset = false :=
  failed_submission_preserves_input _ 0 (by decide)

/-- C4: when validation fails the handler writes every failing field's
message, focuses the first failing field, shows the error toast, and builds
no outbound links. -/
theorem invalid_submission_reports_errors (fd : AppointmentFormData) (today : Int)
    (h : (FormValidator.validateForm fd today).isValid = false) :
    (AppointmentForm.handleSubmit (some fd) today).displayedErrors =
      (FormValidator.validateForm fd today).errors ∧
    (AppointmentForm.handleSubmit (some fd) today).focusedField =
      ((FormValidator.validateForm fd today).errors.head?).map Prod.fst ∧
    (AppointmentForm.handleSubmit (some fd) today).toast =
      some { message := "Please fix the errors below", type := ToastType.error } ∧
    (AppointmentForm.handleSubmit (some fd) today).contactOptions = none := by
  refine ⟨?_, ?_, ?_, ?_⟩ <;> simp [AppointmentForm.handleSubmit, h]

/-- Witness for C4: the empty-name, phone `12345` submission reports both
field errors, focuses the name field, and produces no links. -/
theorem invalid_submission_reports_errors_witness :
    (FormValidator.validateForm
        { patientName := "", phoneNumber := "12345", serviceType := "", preferredDate := "",
          preferredTime := "", message := "" } 0).isValid = false ∧
    (AppointmentForm.handleSubmit
        (some { patientName := "", phoneNumber := "12345", serviceType := "", preferredDate := "",
                preferredTime := "", message := "" }) 0).displayedErrors =
      [("patientName", "Name is required"),
       ("phoneNumber", "Please enter a valid 10-digit Indian mobile number")] ∧
    (AppointmentForm.handleSubmit
        (some { patientName := "", phoneNumber := "12345", serviceType := "", preferredDate := "",
                preferredTime := "", message := "" }) 0).focusedField = some "patientName" ∧
    (AppointmentForm.handleSubmit
        (some { patientName := "", phoneNumber := "12345", serviceType := "", preferredDate := "",
                preferredTime := "", message := "" }) 0).contactOptions = none := by
  have h := invalid_submission_reports_errors
    { patientName := "", phoneNumber := "12345", serviceType := "", preferredDate := "",
      preferredTime := "", message := "" } 0 (by decide)
  exact ⟨by decide, h.1.trans (by decide), h.2.1.trans (by decide), h.2.2.2⟩

/-- C2: the empty date always passes; a date strictly before today fails with
the past-date message; a non-past date on a Sunday fails with the
by-appointment message; every other non-past date passes. -/
theorem date_validation_cases (s : String) (today : Int) :
    (s = "" → FormValidator.validateDate s today = "") ∧
    (∀ d, parseDate s = some d → d < today →
      FormValidator.validateDate s today = "Please select a future date") ∧
    (∀ d, parseDate s = some d → ¬d < today → dayOfWeek d = 0 →
      FormValidator.validateDate s today =
        "Sundays are by appointment only - please call to schedule") ∧
    (∀ d, parseDate s = some d → ¬d < today → dayOfWeek d ≠ 0 →
      FormValidator.validateDate s today = "") := by
  have hempty : parseDate "" = none := rfl
  refine ⟨fun hs => by simp [FormValidator.validateDate, hs], ?_, ?_, ?_⟩
  · intro d hd hlt
    by_cases hs : s = ""
    · rw [hs, hempty] at hd; exact Option.noConfusion hd
    · simp [FormValidator.validateDate, hs, hd, hlt]
  · intro d hd hge h0
    by_cases hs : s = ""
    · rw [hs, hempty] at hd; exact Option.noConfusion hd
    · simp [FormValidator.validateDate, hs, hd, hge, h0]
  · intro d hd hge h0
    by_cases hs : s = ""
    · rw [hs, hempty] at hd; exact Option.noConfusion hd
    · simp [FormValidator.validateDate, hs, hd, hge, h0]

/-- Witness for C2, around today = 2026-10-11 (day 20737): the empty date,
a past date, a future Sunday, and a future Monday. -/
theorem date_validation_cases_witness :
    FormValidator.validateDate "" 20737 = "" ∧
    (parseDate "2020-01-01" = some 18262 ∧ (18262 : Int) < 20737 ∧
      FormValidator.validateDate "2020-01-01" 20737 = "Please select a future date") ∧
    (parseDate "2026-10-18" = some 20744 ∧ ¬(20744 : Int) < 20737 ∧ dayOfWeek 20744 = 0 ∧
      FormValidator.validateDate "2026-10-18" 20737 =
        "Sundays are by appointment only - please call to schedule") ∧
    (parseDate "2026-10-12" = some 20738 ∧ ¬(20738 : Int) < 20737 ∧ dayOfWeek 20738 ≠ 0 ∧
      FormValidator.validateDate "2026-10-12" 20737 = "") :=
  ⟨(date_validation_cases "" 20737).1 rfl,
   ⟨by decide, by decide,
    (date_validation_cases "2020-01-01" 20737).2.1 18262 (by decide) (by decide)⟩,
   ⟨by decide, by decide, by decide,
    (date_validation_cases "2026-10-18" 20737).2.2.1 20744 (by decide) (by decide) (by decide)⟩,
   ⟨by decide, by decide, by decide,
    (date_validation_cases "2026-10-12" 20737).2.2.2 20738 (by decide) (by decide) (by decide)⟩⟩

/-- C8: the phone-input formatter leaves only digits, keeps at most ten of
them, and applying it to an already formatted value changes nothing. -/
theorem format_phone_digits_bounded_idempotent (s : String) :
    (AppointmentForm.formatPhoneInput s).data.all isDigitChar = true ∧
    (AppointmentForm.formatPhoneInput s).data.length ≤ 10 ∧
    AppointmentForm.formatPhoneInput (AppointmentForm.formatPhoneInput s) =
      AppointmentForm.formatPhoneInput s := by
  set v := s.data.filter isDigitChar with hv
  set r := if v.length > 10 then v.take 10 else v with hr
  have hdig : ∀ c ∈ v, isDigitChar c = true := fun c hc => (List.mem_filter.mp hc).2
  have hrdig : ∀ c ∈ r, isDigitChar c = true := by
    intro c hc
    rw [hr] at hc
    split at hc
    · exact hdig c (List.mem_of_mem_take hc)
    · exact hdig c hc
  have hlen : r.length ≤ 10 := by
    rw [hr]; split
    · simp [List.length_take]
    · omega
  have hdata : AppointmentForm.formatPhoneInput s = String.mk r := by
    simp only [AppointmentForm.formatPhoneInput, ← hv, ← hr]
  have hfilter : r.filter isDigitChar = r := List.filter_eq_self.mpr hrdig
  have hnot : ¬r.length > 10 := by omega
  refine ⟨?_, ?_, ?_⟩
  · rw [hdata]
    exact List.all_eq_true.mpr hrdig
  · rw [hdata]
    exact hlen
  · rw [hdata]
    simp [AppointmentForm.formatPhoneInput, hfilter, hnot]

/-- Concatenation distributes over percent-encoding. -/
theorem encodeURIComponent_append (a b : Str) :
    encodeURIComponent (a ++ b) = encodeURIComponent a ++ encodeURIComponent b := by
  induction a with
  | nil => rfl
  | cons c cs ih => simp [encodeURIComponent, ih]

/-- A list is contained in itself followed by anything. -/
theorem part_here (x r : Str) : x <:+: x ++ r := ⟨[], r, rfl⟩

/-- Containment in the tail gives containment in the whole. -/
theorem part_skip (l : Str) {x t : Str} (h : x <:+: t) : x <:+: l ++ t := by
  obtain ⟨s, u, hsu⟩ := h
  exact ⟨l ++ s, u, by rw [← hsu]; simp [List.append_assoc]⟩

/-- A list is contained in anything followed by itself. -/
theorem part_tail (s x : Str) : x <:+: s ++ x := ⟨s, [], by simp⟩

/-- Containment survives appending on the right. -/
theorem part_extend (r : Str) {x t : Str} (h : x <:+: t) : x <:+: t ++ r := by
  obtain ⟨s, u, hsu⟩ := h
  exact ⟨s, u ++ r, by rw [← hsu]; simp [List.append_assoc]⟩

/-- Percent-encoding preserves containment. -/
theorem part_encode {x y : Str} (h : x <:+: y) :
    encodeURIComponent x <:+: encodeURIComponent y := by
  obtain ⟨s, u, hsu⟩ := h
  refine ⟨encodeURIComponent s, encodeURIComponent u, ?_⟩
  rw [← hsu, encodeURIComponent_append, encodeURIComponent_append]

/-- The patient name is contained in the plain email body. -/
theorem patientName_part_email (fd : AppointmentFormData) :
    fd.patientName.data <:+: AppointmentForm.emailContentPlain fd := by
  unfold AppointmentForm.emailContentPlain
  exact part_extend _ (part_extend _ (part_extend _ (part_extend _ (part_extend _ (part_extend _ (part_extend _ (part_extend _ (part_extend _ (part_tail _ _)))))))))

/-- The phone number is contained in the plain email body. -/
theorem phoneNumber_part_email (fd : AppointmentFormData) :
    fd.phoneNumber.data <:+: AppointmentForm.emailContentPlain fd := by
  unfold AppointmentForm.emailContentPlain
  exact part_extend _ (part_extend _ (part_extend _ (part_extend _ (part_extend _ (part_extend _ (part_tail _ _))))))

/-- The patient name is contained in the plain WhatsApp message. -/
theorem patientName_part_whatsapp (fd : AppointmentFormData) :
    fd.patientName.data <:+: AppointmentForm.whatsAppMessagePlain fd := by
  unfold AppointmentForm.whatsAppMessagePlain
  exact part_extend _ (part_extend _ (part_extend _ (part_extend _ (part_extend _ (part_extend _ (part_extend _ (part_tail _ _)))))))

/-- The phone number is contained in the plain WhatsApp message. -/
theorem phoneNumber_part_whatsapp (fd : AppointmentFormData) :
    fd.phoneNumber.data <:+: AppointmentForm.whatsAppMessagePlain fd := by
  unfold AppointmentForm.whatsAppMessagePlain
  exact part_extend _ (part_extend _ (part_extend _ (part_extend _ (part_tail _ _))))

/-- C3: on a record that validates, the handler hands showContactOptions
exactly the mailto and WhatsApp link pair, both links contain the
percent-encoded name and phone, the success toast shows, and the form is
reset. -/
theorem valid_submission_produces_links (fd : AppointmentFormData) (today : Int)
    (h : (FormValidator.validateForm fd today).isValid = true) :
    (AppointmentForm.handleSubmit (some fd) today).contactOptions =
      some (AppointmentForm.mailtoLink fd, AppointmentForm.whatsappLink fd) ∧
    encodeURIComponent fd.patientName.data <:+: AppointmentForm.mailtoLink fd ∧
    encodeURIComponent fd.phoneNumber.data <:+: AppointmentForm.mailtoLink fd ∧
    encodeURIComponent fd.patientName.data <:+: AppointmentForm.whatsappLink fd ∧
    encodeURIComponent fd.phoneNumber.data <:+: AppointmentForm.whatsappLink fd ∧
    (AppointmentForm.handleSubmit (some fd) today).toast =
      some { message := "Appointment request prepared! Choose your preferred contact method.",
             type := ToastType.success } ∧
    (AppointmentForm.handleSubmit (some fd) today).didReset = true := by
  refine ⟨?_, ?_, ?_, ?_, ?_, ?_, ?_⟩
  · simp [AppointmentForm.handleSubmit, h]
  · unfold AppointmentForm.mailtoLink AppointmentForm.generateEmailContent
    exact part_skip _ (part_encode (patientName_part_email fd))
  · unfold AppointmentForm.mailtoLink AppointmentForm.generateEmailContent
    exact part_skip _ (part_encode (phoneNumber_part_email fd))
  · unfold AppointmentForm.whatsappLink AppointmentForm.generateWhatsAppMessage
    exact part_skip _ (part_encode (patientName_part_whatsapp fd))
  · unfold AppointmentForm.whatsappLink AppointmentForm.generateWhatsAppMessage
    exact part_skip _ (part_encode (phoneNumber_part_whatsapp fd))
  · simp [AppointmentForm.handleSubmit, h]
  · simp [AppointmentForm.handleSubmit, h]

/-- Witness for C3: the record of the spec's example (name Asha Rao, phone
9876543210, date tomorrow, a Monday) validates and both links contain the
encoded fields. -/
theorem valid_submission_produces_links_witness :
    (FormValidator.validateForm
        { patientName := "Asha Rao", phoneNumber := "9876543210", serviceType := "",
          preferredDate := "2026-10-12", preferredTime := "", message := "" } 20737).isValid =
      true ∧
    (AppointmentForm.handleSubmit
        (some { patientName := "Asha Rao", phoneNumber := "9876543210", serviceType := "",
                preferredDate := "2026-10-12", preferredTime := "", message := "" })
        20737).contactOptions =
      some
        (AppointmentForm.mailtoLink
          { patientName := "Asha Rao", phoneNumber := "9876543210", serviceType := "",
            preferredDate := "2026-10-12", preferredTime := "", message := "" },
         AppointmentForm.whatsappLink
          { patientName := "Asha Rao", phoneNumber := "9876543210", serviceType := "",
            preferredDate := "2026-10-12", preferredTime := "", message := "" }) ∧
    encodeURIComponent "Asha Rao".data <:+:
      AppointmentForm.mailtoLink
        { patientName := "Asha Rao", phoneNumber := "9876543210", serviceType := "",
          preferredDate := "2026-10-12", preferredTime := "", message := "" } ∧
    encodeURIComponent "9876543210".data <:+:
      AppointmentForm.whatsappLink
        { patientName := "Asha Rao", phoneNumber := "9876543210", serviceType := "",
          preferredDate := "2026-10-12", preferredTime := "", message := "" } := by
  have h := valid_submission_produces_links
    { patientName := "Asha Rao", phoneNumber := "9876543210", serviceType := "",
      preferredDate := "2026-10-12", preferredTime := "", message := "" } 20737 (by decide)
  exact ⟨by decide, h.1, h.2.1, h.2.2.2.2.1⟩

/-- Every item of a closed list reads as unexpanded. -/
theorem closeAll_filter_nil (l : List FAQItem) :
    (FAQAccordion.closeAll l).filter (fun it => it.expanded) = [] := by
  induction l with
  | nil => rfl
  | cons it rest ih => simp [FAQAccordion.closeAll, ih]

/-- Element lookup after closing everything. -/
theorem closeAll_getElem (l : List FAQItem) (j : Nat) :
    (FAQAccordion.closeAll l)[j]? = l[j]?.map (fun it => { it with expanded := false }) := by
  induction l generalizing j with
  | nil => simp [FAQAccordion.closeAll]
  | cons it rest ih =>
    cases j with
    | zero => simp [FAQAccordion.closeAll]
    | succ j => simp [FAQAccordion.closeAll, ih]

/-- After a toggle walk at most one item is expanded. -/
theorem toggleWalk_count (n : Nat) (w : Bool) (l : List FAQItem) :
    FAQAccordion.countExpanded (FAQAccordion.toggleWalk n w l) ≤ 1 := by
  induction l generalizing n with
  | nil => simp [FAQAccordion.toggleWalk, FAQAccordion.countExpanded]
  | cons it rest ih =>
    cases n with
    | zero =>
      cases w <;>
        simp [FAQAccordion.toggleWalk, FAQAccordion.countExpanded, List.filter_cons,
          closeAll_filter_nil]
    | succ n =>
      have := ih n
      simp only [FAQAccordion.toggleWalk, FAQAccordion.countExpanded, List.filter_cons] at this ⊢
      simpa using this

/-- Element lookup away from the toggled index: the item reads closed. -/
theorem toggleWalk_getElem_ne (n : Nat) (w : Bool) (l : List FAQItem) (j : Nat) (hne : j ≠ n) :
    (FAQAccordion.toggleWalk n w l)[j]? =
      l[j]?.map (fun it => { it with expanded := false }) := by
  induction l generalizing n j with
  | nil => simp [FAQAccordion.toggleWalk]
  | cons it rest ih =>
    cases n with
    | zero =>
      cases j with
      | zero => exact absurd rfl hne
      | succ j => simp [FAQAccordion.toggleWalk, closeAll_getElem]
    | succ n =>
      cases j with
      | zero => simp [FAQAccordion.toggleWalk]
      | succ j => simp [FAQAccordion.toggleWalk, ih n j (fun hjn => hne (by rw [hjn]))]

/-- Element lookup at the toggled index: the item reads flipped. -/
theorem toggleWalk_getElem_eq (n : Nat) (w : Bool) (l : List FAQItem) :
    (FAQAccordion.toggleWalk n w l)[n]? = l[n]?.map (fun it => { it with expanded := !w }) := by
  induction l generalizing n with
  | nil => simp [FAQAccordion.toggleWalk]
  | cons it rest ih =>
    cases n with
    | zero => simp [FAQAccordion.toggleWalk]
    | succ n => simp [FAQAccordion.toggleWalk, ih n]

/-- C6: a toggle of an item that has an answer leaves at most one item
expanded, closes every other item, and flips the clicked one (in particular
a toggle of an expanded item closes it). -/
theorem faq_toggle_at_most_one_expanded (st : List FAQItem) (i : Nat) (item : FAQItem)
    (hget : st[i]? = some item) (hans : item.hasAnswer = true) :
    FAQAccordion.countExpanded (FAQAccordion.toggleFAQ st i) ≤ 1 ∧
    (∀ j item2, j ≠ i → (FAQAccordion.toggleFAQ st i)[j]? = some item2 →
      item2.expanded = false) ∧
    (FAQAccordion.toggleFAQ st i)[i]? = some { item with expanded := !item.expanded } := by
  have htog : FAQAccordion.toggleFAQ st i = FAQAccordion.toggleWalk i item.expanded st := by
    simp [FAQAccordion.toggleFAQ, hget, hans]
  rw [htog]
  refine ⟨toggleWalk_count _ _ _, ?_, ?_⟩
  · intro j item2 hne hj
    rw [toggleWalk_getElem_ne i item.expanded st j hne] at hj
    cases hx : st[j]? with
    | none => rw [hx] at hj; exact Option.noConfusion hj
    | some it =>
      rw [hx] at hj
      simp only [Option.map_some'] at hj
      injection hj with hj
      rw [← hj]
  · rw [toggleWalk_getElem_eq, hget]
    rfl

/-- Witness for C6: a three-item list with two items expanded; toggling the
middle one leaves at most one expanded. -/
theorem faq_toggle_at_most_one_expanded_witness :
    ([{ expanded := true, hasAnswer := true }, { expanded := false, hasAnswer := true },
      { expanded := true, hasAnswer := true }] : List FAQItem)[1]? =
      some { expanded := false, hasAnswer := true } ∧
    FAQAccordion.countExpanded
      (FAQAccordion.toggleFAQ
        [{ expanded := true, hasAnswer := true }, { expanded := false, hasAnswer := true },
         { expanded := true, hasAnswer := true }] 1) ≤ 1 :=
  ⟨by decide,
   (faq_toggle_at_most_one_expanded _ 1 { expanded := false, hasAnswer := true }
      (by decide) (by decide)).1⟩

/-- C7: with its expected DOM elements absent, each controller attaches no
listener at initialization and each operation returns the state unchanged,
so nothing can throw to the page. -/
theorem controllers_noop_without_dom :
    (∀ today, AppointmentForm.handleSubmit none today = AppointmentForm.noOutcome) ∧
    (∀ nameInput phoneInput dateInput,
      AppointmentForm.initForm none nameInput phoneInput dateInput = []) ∧
    (∀ msg options,
      ToastManager.showToast { toastElement := none, messageElement := msg } options =
        { toastElement := none, messageElement := msg }) ∧
    (∀ el options,
      ToastManager.showToast { toastElement := el, messageElement := none } options =
        { toastElement := el, messageElement := none }) ∧
    (∀ msg, ToastManager.hide { toastElement := none, messageElement := msg } =
      { toastElement := none, messageElement := msg }) ∧
    (∀ menu navLinkCount,
      MobileNavigation.initMobileNav { navToggle := none, navMenu := menu }
        navLinkCount = []) ∧
    (∀ tog navLinkCount,
      MobileNavigation.initMobileNav { navToggle := tog, navMenu := none }
        navLinkCount = []) ∧
    (∀ menu, MobileNavigation.toggleMenu { navToggle := none, navMenu := menu } =
      { navToggle := none, navMenu := menu }) ∧
    (∀ tog, MobileNavigation.toggleMenu { navToggle := tog, navMenu := none } =
      { navToggle := tog, navMenu := none }) ∧
    (∀ menu, MobileNavigation.closeMenu { navToggle := none, navMenu := menu } =
      { navToggle := none, navMenu := menu }) ∧
    (∀ tog, MobileNavigation.closeMenu { navToggle := tog, navMenu := none } =
      { navToggle := tog, navMenu := none }) ∧
    MobileCTAController.initCTAController none = [] ∧
    (∀ w, MobileCTAController.handleResize none w = none) := by
  refine ⟨fun _ => rfl, fun _ _ _ => rfl, ?_, ?_, fun _ => rfl, ?_, ?_, ?_, ?_, ?_, ?_,
    rfl, fun _ => rfl⟩
  · intro msg options; cases msg <;> rfl
  · intro el options; cases el <;> rfl
  · intro menu navLinkCount; cases menu <;> rfl
  · intro tog navLinkCount; cases tog <;> rfl
  · intro menu; cases menu <;> rfl
  · intro tog; cases tog <;> rfl
  · intro menu; cases menu <;> rfl
  · intro tog; cases tog <;> rfl

end Aayurcure
